import Mathlib

/-!
Verification of the AI-response normalization pipeline and the auth/wardrobe
route handlers of the libaas backend (FastAPI + Groq/OpenAI glue code).

Python strings are modelled as `List Char` (`PStr`), Python dicts produced by
`json.loads` as an inductive `Json` value whose objects are ordered key/value
lists with last-write-wins insertion (CPython dict semantics), and raised
exceptions as the `Except.error` branch of `Except`.  Provider calls are pure
inputs: a handler that awaits a provider receives `Except PStr PStr`, the raw
reply text or the raised error.  The persistence collaborator (Supabase) is
modelled from the spec as a list of records keyed by id/email.
-/

/-- Python `str` modelled as a list of characters. -/
abbrev PStr := List Char

/-- Characters removed by Python `str.strip()` (ASCII whitespace). -/
def isWs (c : Char) : Bool :=
  c == ' ' || c == '\t' || c == '\n' || c == '\r' || c == '\x0b' || c == '\x0c'

/-- Python `str.strip()`: drop whitespace from both ends. -/
def pyStrip (s : PStr) : PStr :=
  List.rdropWhile isWs (List.dropWhile isWs s)

/-- Markdown fence opener checked by `content.startswith("```json")`
(style_insights.py line 90). -/
def fenceJson : PStr := "```json".toList

/-- Bare markdown fence "```" (style_insights.py lines 92 and 94). -/
def fence : PStr := "```".toList

/-- Line 90-91 of style_insights.py: `if content.startswith("```json"):
content = content[7:]`; Python `content[7:]` is `drop 7`. -/
def stripFenceJsonPrefix (c : PStr) : PStr :=
  if fenceJson <+: c then c.drop 7 else c

/-- Line 92-93 of style_insights.py: `if content.startswith("```"):
content = content[3:]`. -/
def stripFencePrefix (c : PStr) : PStr :=
  if fence <+: c then c.drop 3 else c

/-- Line 94-95 of style_insights.py: `if content.endswith("```"):
content = content[:-3]`; Python `content[:-3]` is `take (length - 3)`. -/
def stripFenceSuffix (c : PStr) : PStr :=
  if fence <:+ c then c.take (c.length - 3) else c

/-- Lines 90-96 of style_insights.py: remove a leading "```json", then a
leading "```", then a trailing "```", then `strip()` the result. -/
def stripCodeFences (c0 : PStr) : PStr :=
  pyStrip (stripFenceSuffix (stripFencePrefix (stripFenceJsonPrefix c0)))

/-- JSON value as produced by Python `json.loads`: objects keep key order,
numbers keep their source token (no numeric normalization happens anywhere in
the code under verification). -/
inductive Json where
  | null : Json
  | bool (b : Bool) : Json
  | num (tok : PStr) : Json
  | str (s : PStr) : Json
  | arr (elems : List Json) : Json
  | obj (fields : List (PStr × Json)) : Json

mutual

def Json.decEq : (a b : Json) → Decidable (a = b)
  | .null, .null => .isTrue rfl
  | .bool a, .bool b =>
    match instDecidableEqBool a b with
    | .isTrue h => .isTrue (by rw [h])
    | .isFalse h => .isFalse (fun e => h (Json.bool.inj e))
  | .num a, .num b =>
    match List.hasDecEq a b with
    | .isTrue h => .isTrue (by rw [h])
    | .isFalse h => .isFalse (fun e => h (Json.num.inj e))
  | .str a, .str b =>
    match List.hasDecEq a b with
    | .isTrue h => .isTrue (by rw [h])
    | .isFalse h => .isFalse (fun e => h (Json.str.inj e))
  | .arr a, .arr b =>
    match Json.decEqList a b with
    | .isTrue h => .isTrue (by rw [h])
    | .isFalse h => .isFalse (fun e => h (Json.arr.inj e))
  | .obj a, .obj b =>
    match Json.decEqFields a b with
    | .isTrue h => .isTrue (by rw [h])
    | .isFalse h => .isFalse (fun e => h (Json.obj.inj e))
  | .null, .bool _ | .null, .num _ | .null, .str _ | .null, .arr _ | .null, .obj _ => .isFalse nofun
  | .bool _, .null | .bool _, .num _ | .bool _, .str _ | .bool _, .arr _ | .bool _, .obj _ => .isFalse nofun
  | .num _, .null | .num _, .bool _ | .num _, .str _ | .num _, .arr _ | .num _, .obj _ => .isFalse nofun
  | .str _, .null | .str _, .bool _ | .str _, .num _ | .str _, .arr _ | .str _, .obj _ => .isFalse nofun
  | .arr _, .null | .arr _, .bool _ | .arr _, .num _ | .arr _, .str _ | .arr _, .obj _ => .isFalse nofun
  | .obj _, .null | .obj _, .bool _ | .obj _, .num _ | .obj _, .str _ | .obj _, .arr _ => .isFalse nofun

def Json.decEqList : (a b : List Json) → Decidable (a = b)
  | [], [] => .isTrue rfl
  | [], _ :: _ => .isFalse nofun
  | _ :: _, [] => .isFalse nofun
  | x :: xs, y :: ys =>
    match Json.decEq x y, Json.decEqList xs ys with
    | .isTrue h1, .isTrue h2 => .isTrue (by rw [h1, h2])
    | .isFalse h1, _ => .isFalse (fun e => h1 (List.cons.inj e).1)
    | _, .isFalse h2 => .isFalse (fun e => h2 (List.cons.inj e).2)

def Json.decEqFields : (a b : List (PStr × Json)) → Decidable (a = b)
  | [], [] => .isTrue rfl
  | [], _ :: _ => .isFalse nofun
  | _ :: _, [] => .isFalse nofun
  | (k1, v1) :: xs, (k2, v2) :: ys =>
    match List.hasDecEq k1 k2, Json.decEq v1 v2, Json.decEqFields xs ys with
    | .isTrue hk, .isTrue hv, .isTrue ht => .isTrue (by rw [hk, hv, ht])
    | .isFalse hk, _, _ => .isFalse (fun e => hk (congrArg Prod.fst (List.cons.inj e).1))
    | _, .isFalse hv, _ => .isFalse (fun e => hv (congrArg Prod.snd (List.cons.inj e).1))
    | _, _, .isFalse ht => .isFalse (fun e => ht (List.cons.inj e).2)

end

instance : DecidableEq Json := Json.decEq

/-- Insert a key/value pair into an ordered field list with CPython dict
semantics: an existing key keeps its position and gets the new value. -/
def insertField (fs : List (PStr × Json)) (k : PStr) (v : Json) : List (PStr × Json) :=
  match fs with
  | [] => [(k, v)]
  | (k1, v1) :: rest => if k1 = k then (k1, v) :: rest else (k1, v1) :: insertField rest k v

/-- Lookup of `d[key]` / `key in d` on an object field list. -/
def getField (fs : List (PStr × Json)) (key : PStr) : Option Json :=
  match fs with
  | [] => none
  | (k, v) :: rest => if k = key then some v else getField rest key

/-- Python `d.get(key, default)`. -/
def getFieldD (fs : List (PStr × Json)) (key : PStr) (d : Json) : Json :=
  (getField fs key).getD d

/-- Skip JSON inter-token whitespace. -/
def skipWs : PStr → PStr
  | [] => []
  | c :: cs => if isWs c then skipWs cs else c :: cs

/-- Longest leading run of decimal digits, with the rest of the input. -/
def takeDigits : PStr → PStr × PStr
  | [] => ([], [])
  | c :: cs =>
    if c.isDigit then
      let (d, r) := takeDigits cs
      (c :: d, r)
    else ([], c :: cs)

/-- JSON integer digits: either a lone "0" or a nonzero digit followed by
digits (leading zeros are a parse error, as in Python `json.loads`). -/
def parseIntDigits : PStr → Option (PStr × PStr)
  | [] => none
  | c :: rest =>
    if c = '0' then some (['0'], rest)
    else if c.isDigit then
      let (d, r) := takeDigits rest
      some (c :: d, r)
    else none

/-- Optional fractional part `.digits`. -/
def parseFrac : PStr → Option (PStr × PStr)
  | '.' :: rest =>
    let (d, r) := takeDigits rest
    if d.isEmpty then none else some ('.' :: d, r)
  | s => some ([], s)

/-- Optional exponent part `(e|E)(+|-)?digits`. -/
def parseExp : PStr → Option (PStr × PStr)
  | [] => some ([], [])
  | c :: rest =>
    if c = 'e' ∨ c = 'E' then
      match rest with
      | [] => none
      | s :: rest2 =>
        if s = '+' ∨ s = '-' then
          let (d, r) := takeDigits rest2
          if d.isEmpty then none else some (c :: s :: d, r)
        else
          let (d, r) := takeDigits (s :: rest2)
          if d.isEmpty then none else some (c :: d, r)
    else some ([], c :: rest)

/-- JSON number token `-?int frac? exp?`; the token is kept verbatim. -/
def parseNumber (s : PStr) : Option (Json × PStr) :=
  let (sign, s1) := match s with
    | '-' :: r => ((['-'] : PStr), r)
    | _ => (([] : PStr), s)
  match parseIntDigits s1 with
  | none => none
  | some (ip, s2) =>
    match parseFrac s2 with
    | none => none
    | some (fp, s3) =>
      match parseExp s3 with
      | none => none
      | some (ep, s4) => some (.num (sign ++ ip ++ fp ++ ep), s4)

/-- Escape sequences accepted inside JSON string literals (`\uXXXX` is not
modelled; replies using it count as parse failures). -/
def escChar (c : Char) : Option Char :=
  if c = '"' then some '"'
  else if c = '\\' then some '\\'
  else if c = '/' then some '/'
  else if c = 'n' then some '\n'
  else if c = 't' then some '\t'
  else if c = 'r' then some '\r'
  else if c = 'b' then some (Char.ofNat 8)
  else if c = 'f' then some (Char.ofNat 12)
  else none

mutual

/-- Body of a JSON string literal after the opening quote. -/
def parseStringBody : Nat → PStr → Option (PStr × PStr)
  | 0, _ => none
  | _ + 1, [] => none
  | fuel + 1, c :: rest =>
    if c = '"' then some ([], rest)
    else if c = '\\' then
      match rest with
      | [] => none
      | e :: rest2 =>
        match escChar e with
        | none => none
        | some ch => (parseStringBody fuel rest2).map (fun p => (ch :: p.1, p.2))
    else (parseStringBody fuel rest).map (fun p => (c :: p.1, p.2))

/-- One JSON value together with the unconsumed rest of the input. -/
def parseValue : Nat → PStr → Option (Json × PStr)
  | 0, _ => none
  | fuel + 1, s =>
    match skipWs s with
    | [] => none
    | 'n' :: 'u' :: 'l' :: 'l' :: rest => some (.null, rest)
    | 't' :: 'r' :: 'u' :: 'e' :: rest => some (.bool true, rest)
    | 'f' :: 'a' :: 'l' :: 's' :: 'e' :: rest => some (.bool false, rest)
    | '"' :: rest => (parseStringBody fuel rest).map (fun p => (.str p.1, p.2))
    | '[' :: rest =>
      match skipWs rest with
      | ']' :: rest2 => some (.arr [], rest2)
      | _ => parseElems fuel rest []
    | '{' :: rest =>
      match skipWs rest with
      | '}' :: rest2 => some (.obj [], rest2)
      | _ => parseMembers fuel rest []
    | c :: rest =>
      if c = '-' ∨ c.isDigit then parseNumber (c :: rest) else none

/-- Comma-separated array elements up to the closing bracket. -/
def parseElems : Nat → PStr → List Json → Option (Json × PStr)
  | 0, _, _ => none
  | fuel + 1, s, acc =>
    match parseValue fuel s with
    | none => none
    | some (v, r) =>
      match skipWs r with
      | ',' :: r2 => parseElems fuel r2 (acc ++ [v])
      | ']' :: r2 => some (.arr (acc ++ [v]), r2)
      | _ => none

/-- Comma-separated object members up to the closing brace, with
last-write-wins duplicate keys as in CPython. -/
def parseMembers : Nat → PStr → List (PStr × Json) → Option (Json × PStr)
  | 0, _, _ => none
  | fuel + 1, s, acc =>
    match skipWs s with
    | '"' :: r =>
      match parseStringBody fuel r with
      | none => none
      | some (k, r2) =>
        match skipWs r2 with
        | ':' :: r3 =>
          match parseValue fuel r3 with
          | none => none
          | some (v, r4) =>
            match skipWs r4 with
            | ',' :: r5 => parseMembers fuel r5 (insertField acc k v)
            | '}' :: r5 => some (.obj (insertField acc k v), r5)
            | _ => none
        | _ => none
    | _ => none

end

/-- Python `json.loads`: parse one JSON document, requiring only whitespace
after it; `none` models a raised `json.JSONDecodeError`. -/
def parseJson (s : PStr) : Option Json :=
  match parseValue (2 * s.length + 4) s with
  | some (v, rest) => if skipWs rest = [] then some v else none
  | none => none

/-- Zero test for a JSON number token: drop a sign, keep the mantissa before
any exponent marker, and check all digits are 0 (Python float/int truthiness
on the parsed value). -/
def numTokIsZero (t : PStr) : Bool :=
  let t1 := match t with
    | '-' :: r => r
    | _ => t
  (t1.takeWhile (fun c => !(c == 'e' || c == 'E'))).all (fun c => c == '0' || c == '.')

/-- Python truthiness of a `json.loads` value: None, False, 0, "", [] and
\x7b\x7d are falsy, everything else truthy. -/
def Json.truthy : Json → Bool
  | .null => false
  | .bool b => b
  | .num t => !(numTokIsZero t)
  | .str s => !s.isEmpty
  | .arr xs => !xs.isEmpty
  | .obj fs => !fs.isEmpty

/-- Result dict of `generate_style_insights` (style_insights.py): the success
branch carries `insights` and `generated_at`, the failure branches carry
`error` and fallback `insights`. -/
structure StyleResult where
  success : Bool
  error : Option PStr
  insights : Json
  generated_at : Option Json
deriving DecidableEq

/-- Fallback insights object shared by both failure branches of
`generate_style_insights`; only the summary text differs. -/
def styleDefaultInsights (summary : PStr) : Json :=
  Json.obj [("summary".toList, .str summary),
            ("color_palette".toList, .arr []),
            ("style_recommendations".toList, .arr []),
            ("wardrobe_essentials".toList, .arr []),
            ("fashion_dos".toList, .arr []),
            ("fashion_donts".toList, .arr []),
            ("cultural_tips".toList, .str [])]

/-- Return value of the `except json.JSONDecodeError` branch
(style_insights.py lines 106-121). -/
def styleParseFailureResult : StyleResult :=
  { success := false,
    error := some "Failed to generate insights".toList,
    insights := styleDefaultInsights
      "We\x27re having trouble generating insights right now. Please try again later.".toList,
    generated_at := none }

/-- Return value of the broad `except Exception` branch
(style_insights.py lines 122-136); `e` is `str(e)` of the raised error. -/
def styleApiFailureResult (e : PStr) : StyleResult :=
  { success := false,
    error := some e,
    insights := styleDefaultInsights "Unable to generate insights at this time.".toList,
    generated_at := none }

/-- Embedding of `generate_style_insights` (style_insights.py lines 68-136).
Prompt construction (lines 30-66) only feeds the provider call, which is
abstracted by the `provider` argument: `Except.ok raw` is the reply text of
the first completion choice, `Except.error e` a raised provider error.  On a
reply, the code strips the text (line 87), strips markdown fences (lines
90-96), parses JSON (line 98) and returns the parsed object verbatim under
`insights` (lines 100-104). -/
def generate_style_insights (user_profile : List (PStr × Json))
    (provider : Except PStr PStr) : StyleResult :=
  match provider with
  | .error e => styleApiFailureResult e
  | .ok raw =>
    let content := stripCodeFences (pyStrip raw)
    match parseJson content with
    | some insights =>
      { success := true,
        error := none,
        insights := insights,
        generated_at := some (getFieldD user_profile "created_at".toList (.str [])) }
    | none => styleParseFailureResult

/-- Result dict of `analyze_image` (clip_insights.py): the success branch
carries `source`, the failure branch carries `error`. -/
structure ClipResult where
  top_label : Json
  top_confidence : Json
  all_predictions : Json
  source : Option PStr
  error : Option PStr
deriving DecidableEq

/-- Return value of the `except Exception` branch of `analyze_image`
(clip_insights.py lines 70-77); `e` stands for `str(e)`. -/
def clipFailureResult (e : PStr) : ClipResult :=
  { top_label := .str "unknown".toList,
    top_confidence := .num "0.0".toList,
    all_predictions := .arr [],
    source := none,
    error := some e }

/-- Embedding of `analyze_image` (clip_insights.py lines 14-77).  The provider
call and base64 encoding are abstracted by the `provider` argument.  A reply
is parsed as JSON (line 60) and the expected keys are extracted with `.get`
defaults (lines 63-68); a parse failure or a non-dict reply raises inside the
`try` and lands in the broad `except` (the error strings stand for `str(e)`
of the raised exception, whose exact text is not modelled). -/
def analyze_image (provider : Except PStr PStr) : ClipResult :=
  match provider with
  | .error e => clipFailureResult e
  | .ok text =>
    match parseJson text with
    | some (.obj fs) =>
      { top_label := getFieldD fs "top_label".toList (.str "unknown".toList),
        top_confidence := getFieldD fs "top_confidence".toList (.num "0.0".toList),
        all_predictions := getFieldD fs "all_predictions".toList (.arr []),
        source := some "gpt-4o-mini".toList,
        error := none }
    | some _ => clipFailureResult "AttributeError".toList
    | none => clipFailureResult "JSONDecodeError".toList

/-- Python `sep.join` on a list of strings. -/
def sepJoin (sep : PStr) : List PStr → PStr
  | [] => []
  | [x] => x
  | x :: y :: rest => x ++ sep ++ sepJoin sep (y :: rest)

/-- Python `repr` of a string (single-quoted; quote-escaping inside the text
is not modelled, no claim depends on it). -/
def pyReprOfStr (s : PStr) : PStr := '\x27' :: (s ++ ['\x27'])

mutual

/-- Python `repr` of a `json.loads` value, used when an f-string interpolates
a non-string (numbers keep their source token, an approximation of CPython
float formatting that is exact on the integer and already-normalized tokens
appearing in this code). -/
def pyRepr : Json → PStr
  | .null => "None".toList
  | .bool true => "True".toList
  | .bool false => "False".toList
  | .num t => t
  | .str s => pyReprOfStr s
  | .arr xs => '[' :: (pyReprList xs ++ [']'])
  | .obj fs => '{' :: (pyReprFields fs ++ ['}'])

def pyReprList : List Json → PStr
  | [] => []
  | [x] => pyRepr x
  | x :: y :: rest => pyRepr x ++ ", ".toList ++ pyReprList (y :: rest)

def pyReprFields : List (PStr × Json) → PStr
  | [] => []
  | [(k, v)] => pyReprOfStr k ++ ": ".toList ++ pyRepr v
  | (k, v) :: p :: rest => pyReprOfStr k ++ ": ".toList ++ pyRepr v ++ ", ".toList ++ pyReprFields (p :: rest)

end

/-- Python `str()` as applied by f-string interpolation. -/
def pyStr : Json → PStr
  | .str s => s
  | j => pyRepr j

/-- Checks that every element is a string, returning the string list. -/
def strList : List Json → Option (List PStr)
  | [] => some []
  | .str s :: rest => (strList rest).map (fun t => s :: t)
  | _ => none

/-- Python `sep.join(v)` for a `json.loads` value `v`: joins a list of
strings, the characters of a string, or the keys of a dict; raises a
`TypeError` otherwise or when a list element is not a string. -/
def pyJoin (sep : PStr) (v : Json) : Except PStr PStr :=
  match v with
  | .arr xs =>
    match strList xs with
    | some ss => .ok (sepJoin sep ss)
    | none => .error "TypeError: sequence item: expected str instance".toList
  | .str s => .ok (sepJoin sep (s.map (fun c => [c])))
  | .obj fs => .ok (sepJoin sep (fs.map (fun p => p.1)))
  | _ => .error "TypeError: can only join an iterable".toList

/-- Description sentence for one main outfit section inside
`build_image_prompt` (outfit_generator.py lines 258-284): absent section
gives no sentence, a non-dict section raises at `.get`, details are appended
parenthesized when truthy. -/
def sectionDesc (sfs : List (PStr × Json)) (name : PStr) (lead : PStr) :
    Except PStr (Option PStr) :=
  match getField sfs name with
  | none => .ok none
  | some (.obj tfs) =>
    let base := lead ++ pyStr (getFieldD tfs "item".toList (.str []))
    match getField tfs "details".toList with
    | some d =>
      if d.truthy then
        match pyJoin ", ".toList d with
        | .error e => .error e
        | .ok ds => .ok (some (base ++ " (".toList ++ ds ++ [')']))
      else .ok (some base)
    | none => .ok (some base)
  | some _ => .error "AttributeError: section value is not a dict".toList

/-- Accessories sentence inside `build_image_prompt` (outfit_generator.py
lines 286-290). -/
def accessoriesDesc (sfs : List (PStr × Json)) : Except PStr (Option PStr) :=
  match getField sfs "accessories".toList with
  | none => .ok none
  | some (.obj afs) =>
    match getField afs "items".toList with
    | none => .ok none
    | some items =>
      if items.truthy then
        match pyJoin ", ".toList items with
        | .error e => .error e
        | .ok ds => .ok (some ("accessorized with ".toList ++ ds))
      else .ok none
  | some _ => .error "AttributeError: accessories value is not a dict".toList

/-- Appends an optional sentence to the prompt part list. -/
def appendPart (parts : List PStr) : Option PStr → List PStr
  | none => parts
  | some p => parts ++ [p]

/-- Embedding of `build_image_prompt` (outfit_generator.py lines 230-297):
builds the image-generation text from the processed outfit (a dict with
`title` and `sections`) and the user profile.  Python f-strings convert
interpolated values with `str()` (`pyStr`); `", ".join` raises on non-string
sequence items, aborting the surrounding handler. -/
def build_image_prompt (outfit : List (PStr × Json))
    (user_profile : List (PStr × Json)) : Except PStr PStr :=
  let gender := getFieldD user_profile "gender".toList (.str "male".toList)
  let body_shape := getFieldD user_profile "body_shape".toList (.str [])
  let skin_tone := getFieldD user_profile "skin_tone".toList (.str [])
  let country := getFieldD user_profile "country".toList (.str "Pakistan".toList)
  let sections := getFieldD outfit "sections".toList (.obj [])
  match sections with
  | .obj sfs =>
    let person0 := "A well-groomed ".toList ++ pyStr country ++ [' '] ++ pyStr gender
    let person1 :=
      if body_shape.truthy then person0 ++ " with ".toList ++ pyStr body_shape ++ " build".toList
      else person0
    let person2 :=
      if skin_tone.truthy then person1 ++ " and ".toList ++ pyStr skin_tone ++ " skin tone".toList
      else person1
    match sectionDesc sfs "top".toList "wearing ".toList with
    | .error e => .error e
    | .ok topD =>
    match sectionDesc sfs "layer".toList "with ".toList with
    | .error e => .error e
    | .ok layerD =>
    match sectionDesc sfs "bottom".toList "paired with ".toList with
    | .error e => .error e
    | .ok bottomD =>
    match sectionDesc sfs "footwear".toList "wearing ".toList with
    | .error e => .error e
    | .ok footwearD =>
    match accessoriesDesc sfs with
    | .error e => .error e
    | .ok accD =>
      let ctx := "cultural ".toList ++ pyStr country ++
        " fashion, full body shot, professional photography, natural lighting, clean background".toList
      let parts := appendPart (appendPart (appendPart (appendPart (appendPart [person2]
        topD) layerD) bottomD) footwearD) accD ++ [ctx]
      .ok (sepJoin ", ".toList parts)
  | _ => .error "AttributeError: sections value is not a dict".toList

/-- One processed outfit as appended by outfit_generator.py lines 120-126. -/
structure OutfitOut where
  id : Nat
  title : Json
  description : Json
  sections : List (PStr × Json)
  full_text_prompt : PStr
deriving DecidableEq

/-- Section names scanned by the processing loop
(outfit_generator.py line 95). -/
def sectionNames : List PStr :=
  ["top".toList, "layer".toList, "bottom".toList, "footwear".toList, "accessories".toList]

/-- One iteration of the section loop (outfit_generator.py lines 95-113): a
section that is absent or falsy is skipped; accessories are rebuilt as
`\x7b"items": data.get("items", [])\x7d`; main sections are rebuilt as
`\x7b"item": data.get("item", ""), "details": data.get("details", [])\x7d`;
`.get` on a non-dict raises `AttributeError`, which the broad handler
re-raises. -/
def processSection (ofs : List (PStr × Json)) (name : PStr)
    (acc : List (PStr × Json)) : Except PStr (List (PStr × Json)) :=
  match getField ofs name with
  | none => .ok acc
  | some data =>
    if data.truthy then
      match data with
      | .obj dfs =>
        if name = "accessories".toList then
          .ok (insertField acc name (.obj [("items".toList, getFieldD dfs "items".toList (.arr []))]))
        else
          .ok (insertField acc name
            (.obj [("item".toList, getFieldD dfs "item".toList (.str [])),
                   ("details".toList, getFieldD dfs "details".toList (.arr []))]))
      | _ => .error "AttributeError: section data.get on a non-dict".toList
    else .ok acc

/-- The full section loop over the five names. -/
def processSections (ofs : List (PStr × Json)) : Except PStr (List (PStr × Json)) :=
  sectionNames.foldlM (fun acc name => processSection ofs name acc) []

/-- Default title `f"Look \x7bidx\x7d"`. -/
def lookTitle (idx : Nat) : PStr := "Look ".toList ++ (toString idx).toList

/-- One iteration of the outfit loop (outfit_generator.py lines 91-126) at
1-based index `idx`: processes the sections, then builds the image prompt
from `\x7b"title": ..., "sections": sections\x7d` and the profile, and emits
the response outfit.  A non-dict outfit raises at `outfit.get`. -/
def processOutfit (user_profile : List (PStr × Json)) (idx : Nat) (outfit : Json) :
    Except PStr OutfitOut :=
  match outfit with
  | .obj ofs =>
    match processSections ofs with
    | .error e => .error e
    | .ok sections =>
      let title := getFieldD ofs "title".toList (.str (lookTitle idx))
      match build_image_prompt [("title".toList, title), ("sections".toList, .obj sections)]
          user_profile with
      | .error e => .error e
      | .ok ftp =>
        .ok { id := idx,
              title := title,
              description := getFieldD ofs "description".toList (.str []),
              sections := sections,
              full_text_prompt := ftp }
  | _ => .error "AttributeError: outfit.get on a non-dict".toList

/-- The outfit loop with Python `enumerate(..., 1)` indexing; the first
raised error aborts the whole list. -/
def processOutfitsFrom (user_profile : List (PStr × Json)) :
    Nat → List Json → Except PStr (List OutfitOut)
  | _, [] => .ok []
  | idx, o :: rest =>
    match processOutfit user_profile idx o with
    | .error e => .error e
    | .ok r => (processOutfitsFrom user_profile (idx + 1) rest).map (fun t => r :: t)

/-- Embedding of `generate_outfit_recommendations` (outfit_generator.py
lines 15-134).  `hasApiKey` models `client is None` (line 43): without a key
the function raises before any provider interaction.  The prompt construction
(`build_outfit_prompt`) only feeds the provider call, abstracted by the
`provider` argument.  A reply is parsed with `json.loads` (line 85) and the
outfits are reshaped (lines 90-128); every exception inside the `try` is
re-raised by the broad handler (lines 130-134), never swallowed.  A present
non-list `"outfits"` value is modelled as an error (CPython would iterate a
string or dict and raise `AttributeError` on the first element instead; no
claim depends on that corner). -/
def generate_outfit_recommendations (hasApiKey : Bool)
    (user_profile : List (PStr × Json)) (provider : Except PStr PStr) :
    Except PStr (List OutfitOut) :=
  if !hasApiKey then
    .error "Groq API key not configured. Please add GROQ_API_KEY to your .env file.".toList
  else
    match provider with
    | .error e => .error e
    | .ok content =>
      match parseJson content with
      | none => .error "json.JSONDecodeError".toList
      | some (.obj dfs) =>
        match getFieldD dfs "outfits".toList (.arr []) with
        | .arr outfits => processOutfitsFrom user_profile 1 outfits
        | _ => .error "TypeError: outfits value is not a list".toList
      | some _ => .error "AttributeError: data.get on a non-dict".toList

/-- Database record as returned by the persistence service: a JSON object
field list (Supabase rows are received as Python dicts). -/
abbrev DbRec := List (PStr × Json)

/-- Modelled from the spec: the external key-value persistence service
("a key-value/object persistence service exposing get/create/update-by-id"),
as a list of records. -/
abbrev Db := List DbRec

/-- Raised `HTTPException(status_code, detail)`. -/
structure HTTPError where
  status : Nat
  detail : PStr
deriving DecidableEq

/-- Modelled from the spec: `hash_password` lives in
app/components/auth/utils.py, which is not among the sources; the spec only
records that credentials are an email plus a password hash.  Modelled as an
injective tagging of the password. -/
def hash_password (p : PStr) : PStr := 'h' :: p

/-- Modelled from the spec: `verify_password` (same missing module) succeeds
exactly when the password matches the stored hash. -/
def verify_password (p : PStr) (stored : PStr) : Bool :=
  decide (hash_password p = stored)

/-- Modelled from the spec: `validate_image_type` (same missing module)
accepts the MIME types named in the 400 detail "Invalid image type. Allowed:
JPEG, PNG, GIF, WebP". -/
def validate_image_type (ct : PStr) : Bool :=
  decide (ct = "image/jpeg".toList ∨ ct = "image/png".toList ∨
          ct = "image/gif".toList ∨ ct = "image/webp".toList)

/-- Modelled from the spec: `get_user_by_email` of the persistence service
returns the first record whose `email` field matches. -/
def get_user_by_email (db : Db) (email : PStr) : Option DbRec :=
  db.find? (fun u => decide (getField u "email".toList = some (.str email)))

/-- Modelled from the spec: `get_user_by_id` of the persistence service. -/
def get_user_by_id (db : Db) (user_id : PStr) : Option DbRec :=
  db.find? (fun u => decide (getField u "id".toList = some (.str user_id)))

/-- Modelled from the spec: `create_user` of the persistence service stores
the record and returns it with a generated `id`. -/
def create_user (db : Db) (user_data : DbRec) : DbRec × Db :=
  let stored := insertField user_data "id".toList (.str ("user-".toList ++ (toString db.length).toList))
  (stored, db ++ [stored])

/-- Python `None`-or-string form value stored into a JSON column. -/
def optStr : Option PStr → Json
  | none => .null
  | some s => .str s

/-- Serialization of an `analyze_image` result into the `clip_insights`
column (the success dict carries `source`, the failure dict `error`). -/
def ClipResult.toJson (c : ClipResult) : Json :=
  Json.obj ([("top_label".toList, c.top_label),
             ("top_confidence".toList, c.top_confidence),
             ("all_predictions".toList, c.all_predictions)]
    ++ (match c.source with
        | some s => [("source".toList, Json.str s)]
        | none => [])
    ++ (match c.error with
        | some e => [("error".toList, Json.str e)]
        | none => []))

/-- Body of the 201 signup response (auth.py lines 99-105). -/
structure SignupOk where
  message : PStr
  user_id : Json
  clip_insights : Option ClipResult
deriving DecidableEq

/-- User row assembled by signup (auth.py lines 80-91). -/
def signupUserData (name email : PStr) (password_hash : PStr) (gender : PStr)
    (height country body_shape skin_tone : Option PStr)
    (image_url : Option PStr) (clip : Option ClipResult) : DbRec :=
  [("name".toList, .str name),
   ("email".toList, .str email),
   ("password_hash".toList, .str password_hash),
   ("gender".toList, .str gender),
   ("height".toList, optStr height),
   ("country".toList, optStr country),
   ("body_shape".toList, optStr body_shape),
   ("skin_tone".toList, optStr skin_tone),
   ("image_url".toList, optStr image_url),
   ("clip_insights".toList, (clip.map ClipResult.toJson).getD .null)]

/-- Embedding of the `signup` handler (auth.py lines 17-111).  `image` is the
optional upload's content type, `image_url` the URL the storage collaborator
would return for it, and `imgProvider` the vision provider interaction used
by `analyze_image`.  The handler validates the password length and gender,
rejects duplicate emails, hashes the password, analyzes the optional image
and creates the user; every error path leaves the store unchanged. -/
def signup (name email password gender : PStr)
    (height country body_shape skin_tone : Option PStr)
    (image : Option PStr) (image_url : PStr) (imgProvider : Except PStr PStr)
    (db : Db) : Except HTTPError SignupOk × Db :=
  if password.length < 6 then
    (.error ⟨400, "Password must be at least 6 characters".toList⟩, db)
  else if ¬ (gender = "male".toList ∨ gender = "female".toList ∨ gender = "other".toList) then
    (.error ⟨400, "Gender must be \x27male\x27, \x27female\x27, or \x27other\x27".toList⟩, db)
  else
    match get_user_by_email db email with
    | some _ => (.error ⟨400, "User with this email already exists".toList⟩, db)
    | none =>
      let password_hash := hash_password password
      match image with
      | some content_type =>
        if ¬ validate_image_type content_type then
          (.error ⟨400, "Invalid image type. Allowed: JPEG, PNG, GIF, WebP".toList⟩, db)
        else
          let clip := analyze_image imgProvider
          let (created, db2) := create_user db
            (signupUserData name email password_hash gender height country body_shape skin_tone
              (some image_url) (some clip))
          (.ok { message := "Signup successful".toList,
                 user_id := getFieldD created "id".toList .null,
                 clip_insights := some clip }, db2)
      | none =>
        let (created, db2) := create_user db
          (signupUserData name email password_hash gender height country body_shape skin_tone
            none none)
        (.ok { message := "Signup successful".toList,
               user_id := getFieldD created "id".toList .null,
               clip_insights := none }, db2)

/-- Body of the 200 login response (auth.py lines 139-144). -/
structure LoginOk where
  message : PStr
  user_id : Json
  name : Json
  email : Json
deriving DecidableEq

/-- The fixed 401 raised on an unknown email or a failed verification
(auth.py lines 127 and 136); its detail is a literal that carries no field of
the matched user. -/
def invalidCredentials : HTTPError := ⟨401, "Invalid email or password".toList⟩

/-- Embedding of the `login` handler (auth.py lines 113-150): fetch by email,
401 when absent, verify the password against the stored hash, 401 on
mismatch, otherwise return message/id/name/email.  A row missing one of the
accessed keys raises `KeyError` inside the `try` and surfaces as the broad
500 (auth.py lines 148-150); a non-string stored hash would raise inside
verification, likewise a 500. -/
def login (email password : PStr) (db : Db) : Except HTTPError LoginOk :=
  match get_user_by_email db email with
  | none => .error invalidCredentials
  | some user =>
    match getField user "password_hash".toList with
    | some (.str stored) =>
      if verify_password password stored then
        match getField user "id".toList, getField user "name".toList,
            getField user "email".toList with
        | some i, some n, some e =>
          .ok { message := "Login successful".toList, user_id := i, name := n, email := e }
        | _, _, _ => .error ⟨500, "Login failed: KeyError".toList⟩
      else .error invalidCredentials
    | some _ => .error ⟨500, "Login failed: TypeError".toList⟩
    | none => .error ⟨500, "Login failed: KeyError".toList⟩

/-- Python `dict.pop(key, None)`: the record without that key. -/
def popField (fs : DbRec) (key : PStr) : DbRec :=
  fs.filter (fun p => decide (p.1 ≠ key))

/-- Lines 181-183 of auth.py: copy
`clip_insights["persisted_style_insights"]` into `style_insights` when the
`clip_insights` column is a truthy dict holding that key (in this schema the
column is always a dict or null, so the CPython behaviour of `in` on other
values does not arise). -/
def attachPersistedStyleInsights (u2 : DbRec) : DbRec :=
  match getField u2 "clip_insights".toList with
  | some (.obj cfs) =>
    if (Json.obj cfs).truthy then
      match getField cfs "persisted_style_insights".toList with
      | some psi => insertField u2 "style_insights".toList psi
      | none => u2
    else u2
  | _ => u2

/-- Embedding of the `get_profile` handler (auth.py lines 152-191).  The
derived recommendations come from `generate_recommendations`
(app/components/ai/fashion_recommendations.py, not among the sources); their
value does not affect any claim, so they are passed in as `recommendations`.
The handler pops `password_hash`, attaches the recommendations, and copies
`clip_insights["persisted_style_insights"]` to `style_insights` when the
`clip_insights` column is a truthy dict holding that key. -/
def get_profile (db : Db) (user_id : PStr) (recommendations : Json) :
    Except HTTPError DbRec :=
  match get_user_by_id db user_id with
  | none => .error ⟨404, "User not found".toList⟩
  | some user =>
    let user1 := popField user "password_hash".toList
    let user2 := insertField user1 "recommendations".toList recommendations
    .ok (attachPersistedStyleInsights user2)

/-- Form of `update_profile` (auth.py lines 194-203): `user_id` plus six
optional fields; FastAPI delivers an absent field as `None` and an empty
input as `""`. -/
structure UpdateForm where
  user_id : PStr
  name : Option PStr
  gender : Option PStr
  country : Option PStr
  height : Option PStr
  body_shape : Option PStr
  skin_tone : Option PStr
deriving DecidableEq

/-- One `if field: updates[...] = field` line (auth.py lines 224-229):
Python truthiness skips both `None` and the empty string. -/
def addIfTruthy (u : List (PStr × Json)) (key : PStr) : Option PStr → List (PStr × Json)
  | some s => if s.isEmpty then u else insertField u key (.str s)
  | none => u

/-- The `updates` dict built by auth.py lines 223-229, in source order. -/
def buildUpdates (f : UpdateForm) : List (PStr × Json) :=
  addIfTruthy (addIfTruthy (addIfTruthy (addIfTruthy (addIfTruthy (addIfTruthy
    [] "name".toList f.name) "gender".toList f.gender) "country".toList f.country)
    "height".toList f.height) "body_shape".toList f.body_shape) "skin_tone".toList f.skin_tone

/-- Success bodies of `update_profile`: the early "No changes to update"
return (auth.py line 233) and the full update response (lines 249-253). -/
inductive UpdateResp where
  | noChanges (message : PStr) : UpdateResp
  | updated (message : PStr) (data : DbRec) : UpdateResp
deriving DecidableEq

/-- Modelled from the spec: `supabase.table("users").update(updates).eq("id",
user_id).execute()` applies the updates to every record whose id matches. -/
def applyUpdates (db : Db) (user_id : PStr) (updates : List (PStr × Json)) : Db :=
  db.map (fun u =>
    if decide (getField u "id".toList = some (.str user_id)) then
      updates.foldl (fun acc kv => insertField acc kv.1 kv.2) u
    else u)

/-- Embedding of the `update_profile` handler (auth.py lines 194-261):
reject a falsy or sentinel `user_id`, 404 when the user is missing, build
the truthy-field update dict, return early with no write when it is empty,
otherwise write and answer with the updated row. -/
def update_profile (f : UpdateForm) (db : Db) : Except HTTPError UpdateResp × Db :=
  if f.user_id.isEmpty ∨ f.user_id = "null".toList ∨ f.user_id = "undefined".toList then
    (.error ⟨400, "Invalid user_id provided".toList⟩, db)
  else
    match get_user_by_id db f.user_id with
    | none =>
      (.error ⟨404, "User with ID ".toList ++ f.user_id ++ " not found".toList⟩, db)
    | some _ =>
      let updates := buildUpdates f
      if updates.isEmpty then
        (.ok (.noChanges "No changes to update".toList), db)
      else
        let db2 := applyUpdates db f.user_id updates
        match db2.filter (fun u => decide (getField u "id".toList = some (.str f.user_id))) with
        | [] => (.error ⟨500, "Database update failed - no record was modified".toList⟩, db2)
        | r :: _ =>
          (.ok (.updated "Profile updated successfully".toList r), db2)

/-- Embedding of the `recategorize_all_items` stub (wardrobe.py lines
175-183): a fixed body, no read or write of the store. -/
def recategorize_all_items (user_id : PStr) (db : Db) : Json × Db :=
  (Json.obj [("success".toList, .bool false),
             ("message".toList,
              .str "AI Auto-categorization is disabled in this deployment.".toList)], db)

/-- Embedding of the `generate_outfit_looks` stub (wardrobe.py lines
228-240): a fixed body, no read or write of the store. -/
def generate_outfit_looks (user_id event_type : PStr) (num_looks : Int) (db : Db) : Json × Db :=
  (Json.obj [("success".toList, .bool false),
             ("message".toList,
              .str "AI Virtual Try-On is coming soon (Disabled for optimization).".toList)], db)

/-- First outfit of a successful recommendation result, for concrete
evaluation of the pipeline. -/
def firstOutfit (r : Except PStr (List OutfitOut)) : Option OutfitOut :=
  match r with
  | .ok (o :: _) => some o
  | _ => none

/-! Helper lemmas about record field access. -/

theorem getField_popField_self (fs : DbRec) (key : PStr) :
    getField (popField fs key) key = none := by
  induction fs with
  | nil => rfl
  | cons hd tl ih =>
    by_cases h : hd.1 = key
    · simp [popField, List.filter, h] at ih ⊢
      exact ih
    · simp only [popField, List.filter, decide_not] at ih ⊢
      simp [h, getField, ih]

theorem getField_insertField_ne (fs : List (PStr × Json)) (k key : PStr) (v : Json)
    (h : k ≠ key) : getField (insertField fs k v) key = getField fs key := by
  induction fs with
  | nil => simp [insertField, getField, h]
  | cons hd tl ih =>
    by_cases h1 : hd.1 = k
    · simp [insertField, getField, h1, h]
    · simp [insertField, getField, h1, ih]

/-- C8: the generate-looks and recategorize endpoints are stubs: for every
input, each returns its fixed success=False "disabled"/"coming soon" body,
independent of the request parameters, and leaves the store untouched. -/
theorem stub_endpoints_fixed_response (u1 u2 et : PStr) (n : Int) (db1 db2 : Db) :
    recategorize_all_items u1 db1 =
      (Json.obj [("success".toList, .bool false),
                 ("message".toList,
                  .str "AI Auto-categorization is disabled in this deployment.".toList)], db1) ∧
    generate_outfit_looks u2 et n db2 =
      (Json.obj [("success".toList, .bool false),
                 ("message".toList,
                  .str "AI Virtual Try-On is coming soon (Disabled for optimization).".toList)], db2) :=
  ⟨rfl, rfl⟩

/-- C6: a signup whose password is shorter than 6 characters answers 400
with a detail that mentions the minimum length 6 (it contains the digit
"6"), and the user store is returned unchanged: no user is created. -/
theorem signup_short_password_rejected (name email password gender : PStr)
    (height country body_shape skin_tone image : Option PStr) (image_url : PStr)
    (imgProvider : Except PStr PStr) (db : Db) (h : password.length < 6) :
    signup name email password gender height country body_shape skin_tone
        image image_url imgProvider db
      = (.error ⟨400, "Password must be at least 6 characters".toList⟩, db) ∧
    '6' ∈ "Password must be at least 6 characters".toList := by
  refine ⟨?_, by decide⟩
  simp [signup, h]

/-- Witness for C6 at the spec's example: a 5-character password. -/
theorem signup_short_password_rejected_witness :
    ("12345".toList.length < 6) ∧
    (signup "Ann".toList "a@b.c".toList "12345".toList "male".toList
        none none none none none [] (.ok []) []
      = (.error ⟨400, "Password must be at least 6 characters".toList⟩, []) ∧
     '6' ∈ "Password must be at least 6 characters".toList) :=
  ⟨by decide,
   signup_short_password_rejected "Ann".toList "a@b.c".toList "12345".toList "male".toList
     none none none none none [] (.ok []) [] (by decide)⟩

/-- C7: a login whose email matches a stored user but whose password does not
verify against the stored hash answers exactly the fixed
`invalidCredentials` 401, a literal that carries no field of the matched
user (no id, name, or email appears in the response). -/
theorem login_wrong_password_401 (email password : PStr) (db : Db) (u : DbRec) (stored : PStr)
    (hfind : get_user_by_email db email = some u)
    (hhash : getField u "password_hash".toList = some (.str stored))
    (hverify : verify_password password stored = false) :
    login email password db = .error invalidCredentials ∧
    invalidCredentials = ⟨401, "Invalid email or password".toList⟩ := by
  refine ⟨?_, rfl⟩
  have hhash2 := hhash
  simp only [String.toList] at hhash2
  simp [login, hfind, hhash2, hverify]

/-- Witness for C7: a stored user, the right email, the wrong password. -/
theorem login_wrong_password_401_witness :
    (get_user_by_email
        [[("id".toList, Json.str "u1".toList), ("name".toList, Json.str "Ann".toList),
          ("email".toList, Json.str "a@b.c".toList),
          ("password_hash".toList, Json.str (hash_password "secret1".toList))]]
        "a@b.c".toList
      = some [("id".toList, Json.str "u1".toList), ("name".toList, Json.str "Ann".toList),
              ("email".toList, Json.str "a@b.c".toList),
              ("password_hash".toList, Json.str (hash_password "secret1".toList))]) ∧
    (verify_password "wrong77".toList (hash_password "secret1".toList) = false) ∧
    (login "a@b.c".toList "wrong77".toList
        [[("id".toList, Json.str "u1".toList), ("name".toList, Json.str "Ann".toList),
          ("email".toList, Json.str "a@b.c".toList),
          ("password_hash".toList, Json.str (hash_password "secret1".toList))]]
      = .error invalidCredentials) :=
  ⟨by decide, by decide,
   (login_wrong_password_401 "a@b.c".toList "wrong77".toList
     [[("id".toList, Json.str "u1".toList), ("name".toList, Json.str "Ann".toList),
       ("email".toList, Json.str "a@b.c".toList),
       ("password_hash".toList, Json.str (hash_password "secret1".toList))]]
     [("id".toList, Json.str "u1".toList), ("name".toList, Json.str "Ann".toList),
      ("email".toList, Json.str "a@b.c".toList),
      ("password_hash".toList, Json.str (hash_password "secret1".toList))]
     (hash_password "secret1".toList) (by decide) (by decide) (by decide)).1⟩

/-- Attaching persisted style insights only ever adds the `style_insights`
key, so it preserves the absence of any other key. -/
theorem getField_attachPersistedStyleInsights_ne (u2 : DbRec) (key : PStr)
    (hne : "style_insights".toList ≠ key) (hkey : getField u2 key = none) :
    getField (attachPersistedStyleInsights u2) key = none := by
  unfold attachPersistedStyleInsights
  split
  · split
    · split
      · rw [getField_insertField_ne _ _ _ _ hne]; exact hkey
      · exact hkey
    · exact hkey
  · exact hkey

/-- C9: every 200 profile response omits `password_hash`: the handler pops
the key before attaching recommendations and persisted style insights, and
neither later step can reintroduce it. -/
theorem get_profile_omits_password_hash (db : Db) (user_id : PStr) (recs : Json) (r : DbRec)
    (h : get_profile db user_id recs = .ok r) :
    getField r "password_hash".toList = none := by
  unfold get_profile at h
  match hf : get_user_by_id db user_id with
  | none => rw [hf] at h; exact absurd h (by simp)
  | some user =>
    rw [hf] at h
    simp only at h
    rw [← Except.ok.inj h]
    refine getField_attachPersistedStyleInsights_ne _ _ (by decide) ?_
    rw [getField_insertField_ne _ _ _ _ (by decide)]
    exact getField_popField_self user _

/-- Witness for C9: a stored user with a password hash; the returned profile
has no `password_hash` field. -/
theorem get_profile_omits_password_hash_witness :
    (get_profile
        [[("id".toList, Json.str "u7".toList),
          ("password_hash".toList, Json.str "hsecret".toList),
          ("clip_insights".toList, Json.null)]]
        "u7".toList Json.null
      = .ok [("id".toList, Json.str "u7".toList),
             ("clip_insights".toList, Json.null),
             ("recommendations".toList, Json.null)]) ∧
    getField [("id".toList, Json.str "u7".toList),
              ("clip_insights".toList, Json.null),
              ("recommendations".toList, Json.null)] "password_hash".toList = none :=
  ⟨rfl,
   get_profile_omits_password_hash
     [[("id".toList, Json.str "u7".toList),
       ("password_hash".toList, Json.str "hsecret".toList),
       ("clip_insights".toList, Json.null)]]
     "u7".toList Json.null
     [("id".toList, Json.str "u7".toList),
      ("clip_insights".toList, Json.null),
      ("recommendations".toList, Json.null)]
     rfl⟩

/-- C10: an update-profile request whose optional fields are all absent or
empty strings builds an empty update dict, performs no write (the store is
returned unchanged), and answers "No changes to update"; the empty strings
are treated exactly like absent fields. -/
theorem update_profile_all_empty_no_write (f : UpdateForm) (db : Db) (u : DbRec)
    (hvalid : ¬ (f.user_id.isEmpty ∨ f.user_id = "null".toList ∨ f.user_id = "undefined".toList))
    (hfound : get_user_by_id db f.user_id = some u)
    (hname : f.name = none ∨ f.name = some [])
    (hgender : f.gender = none ∨ f.gender = some [])
    (hcountry : f.country = none ∨ f.country = some [])
    (hheight : f.height = none ∨ f.height = some [])
    (hshape : f.body_shape = none ∨ f.body_shape = some [])
    (htone : f.skin_tone = none ∨ f.skin_tone = some []) :
    buildUpdates f = [] ∧
    update_profile f db = (.ok (.noChanges "No changes to update".toList), db) := by
  have hb : buildUpdates f = [] := by
    unfold buildUpdates
    rcases hname with h1 | h1 <;> rcases hgender with h2 | h2 <;>
      rcases hcountry with h3 | h3 <;> rcases hheight with h4 | h4 <;>
      rcases hshape with h5 | h5 <;> rcases htone with h6 | h6 <;>
      simp [h1, h2, h3, h4, h5, h6, addIfTruthy]
  refine ⟨hb, ?_⟩
  unfold update_profile
  rw [if_neg hvalid]
  rw [hfound]
  simp only [hb]
  rfl

/-- Witness for C10: a valid user id, `name`/`height` sent as empty strings,
the rest absent. -/
theorem update_profile_all_empty_no_write_witness :
    (¬ (("u7".toList : PStr).isEmpty ∨ ("u7".toList : PStr) = "null".toList ∨
        ("u7".toList : PStr) = "undefined".toList)) ∧
    (get_user_by_id [[("id".toList, Json.str "u7".toList)]] "u7".toList
      = some [("id".toList, Json.str "u7".toList)]) ∧
    (buildUpdates ⟨"u7".toList, some [], none, none, some [], none, none⟩ = [] ∧
     update_profile ⟨"u7".toList, some [], none, none, some [], none, none⟩
        [[("id".toList, Json.str "u7".toList)]]
      = (.ok (.noChanges "No changes to update".toList),
         [[("id".toList, Json.str "u7".toList)]])) :=
  ⟨by decide, by decide,
   update_profile_all_empty_no_write ⟨"u7".toList, some [], none, none, some [], none, none⟩
     [[("id".toList, Json.str "u7".toList)]] [("id".toList, Json.str "u7".toList)]
     (by decide) (by decide)
     (Or.inr rfl) (Or.inl rfl) (Or.inl rfl) (Or.inr rfl) (Or.inl rfl) (Or.inl rfl)⟩

/-- C2: for every provider reply text that is empty or fails to parse as
JSON, both normalizers return their documented fallback object; both
embeddings are total functions into plain result records, so no exception
reaches the caller (the Python code catches `json.JSONDecodeError` and
`Exception` respectively). -/
theorem normalizers_default_on_unparseable (profile : List (PStr × Json)) (raw text : PStr)
    (hs : parseJson (stripCodeFences (pyStrip raw)) = none)
    (hc : parseJson text = none) :
    generate_style_insights profile (.ok raw) = styleParseFailureResult ∧
    analyze_image (.ok text) = clipFailureResult "JSONDecodeError".toList ∧
    generate_style_insights profile (.ok []) = styleParseFailureResult ∧
    analyze_image (.ok []) = clipFailureResult "JSONDecodeError".toList := by
  refine ⟨?_, ?_, rfl, rfl⟩
  · simp [generate_style_insights, hs]
  · simp [analyze_image, hc]

/-- Witness for C2 at a non-JSON reply. -/
theorem normalizers_default_on_unparseable_witness :
    (parseJson (stripCodeFences (pyStrip "oops, not json".toList)) = none) ∧
    (parseJson "oops, not json".toList = none) ∧
    (generate_style_insights [] (.ok "oops, not json".toList) = styleParseFailureResult ∧
     analyze_image (.ok "oops, not json".toList) = clipFailureResult "JSONDecodeError".toList ∧
     generate_style_insights [] (.ok []) = styleParseFailureResult ∧
     analyze_image (.ok []) = clipFailureResult "JSONDecodeError".toList) :=
  ⟨rfl, rfl,
   normalizers_default_on_unparseable [] "oops, not json".toList "oops, not json".toList rfl rfl⟩

/-- C5: when the provider interaction fails (a raised provider error, and
for the outfit pipeline also an unparseable reply or a missing API key),
`generate_style_insights` swallows the error into its structured fallback
record while `generate_outfit_recommendations` re-raises, failing the whole
request. -/
theorem style_falls_back_outfits_reraise (profile : List (PStr × Json)) (e content : PStr)
    (hp : parseJson content = none) :
    generate_style_insights profile (.error e) = styleApiFailureResult e ∧
    generate_outfit_recommendations true profile (.error e) = .error e ∧
    generate_outfit_recommendations true profile (.ok content)
      = .error "json.JSONDecodeError".toList ∧
    generate_outfit_recommendations false profile (.error e)
      = .error "Groq API key not configured. Please add GROQ_API_KEY to your .env file.".toList := by
  refine ⟨rfl, rfl, ?_, rfl⟩
  simp [generate_outfit_recommendations, hp]

/-- Witness for C5 at a concrete provider error and a non-JSON reply. -/
theorem style_falls_back_outfits_reraise_witness :
    (parseJson "oops".toList = none) ∧
    (generate_style_insights [] (.error "boom".toList) = styleApiFailureResult "boom".toList ∧
     generate_outfit_recommendations true [] (.error "boom".toList) = .error "boom".toList ∧
     generate_outfit_recommendations true [] (.ok "oops".toList)
       = .error "json.JSONDecodeError".toList ∧
     generate_outfit_recommendations false [] (.error "boom".toList)
       = .error "Groq API key not configured. Please add GROQ_API_KEY to your .env file.".toList) :=
  ⟨rfl, style_falls_back_outfits_reraise [] "boom".toList "oops".toList rfl⟩

/-- C1 counterexample, at the spec's own example reply
`\x7b"summary": "x", "color_palette": ["navy"]\x7d`: the normalizer returns
the two parsed keys only; `style_recommendations` (like the other three
missing keys) is absent from the result, not filled with its documented
empty default, so the result differs from the defaults-filled object the
claim demands. -/
theorem style_insights_missing_keys_not_filled :
    (generate_style_insights []
        (.ok "\x7b\"summary\": \"x\", \"color_palette\": [\"navy\"]\x7d".toList)).insights
      = Json.obj [("summary".toList, Json.str "x".toList),
                  ("color_palette".toList, Json.arr [Json.str "navy".toList])] ∧
    (match (generate_style_insights []
        (.ok "\x7b\"summary\": \"x\", \"color_palette\": [\"navy\"]\x7d".toList)).insights with
     | Json.obj fs => getField fs "style_recommendations".toList
     | _ => none) = none ∧
    (generate_style_insights []
        (.ok "\x7b\"summary\": \"x\", \"color_palette\": [\"navy\"]\x7d".toList)).insights
      ≠ Json.obj [("summary".toList, Json.str "x".toList),
                  ("color_palette".toList, Json.arr [Json.str "navy".toList]),
                  ("style_recommendations".toList, Json.arr []),
                  ("wardrobe_essentials".toList, Json.arr []),
                  ("fashion_dos".toList, Json.arr []),
                  ("fashion_donts".toList, Json.arr []),
                  ("cultural_tips".toList, Json.str [])] :=
  ⟨rfl, rfl, by decide⟩

/-- C1 (amended): for every provider reply whose stripped text parses as
JSON, the style-insights normalizer returns the parsed value verbatim under
`insights`: keys present in the reply are kept unchanged and missing
expected keys stay absent; the documented empty defaults appear only in the
parse-failure fallback object. -/
theorem style_insights_returns_parsed_verbatim (profile : List (PStr × Json)) (raw : PStr)
    (j : Json) (h : parseJson (stripCodeFences (pyStrip raw)) = some j) :
    generate_style_insights profile (.ok raw) =
      { success := true, error := none, insights := j,
        generated_at := some (getFieldD profile "created_at".toList (.str [])) } := by
  simp [generate_style_insights, h]

/-- Witness for the amended C1 at the spec's example reply. -/
theorem style_insights_returns_parsed_verbatim_witness :
    (parseJson (stripCodeFences (pyStrip
        "\x7b\"summary\": \"x\", \"color_palette\": [\"navy\"]\x7d".toList))
      = some (Json.obj [("summary".toList, Json.str "x".toList),
                        ("color_palette".toList, Json.arr [Json.str "navy".toList])])) ∧
    (generate_style_insights []
        (.ok "\x7b\"summary\": \"x\", \"color_palette\": [\"navy\"]\x7d".toList) =
      { success := true, error := none,
        insights := Json.obj [("summary".toList, Json.str "x".toList),
                              ("color_palette".toList, Json.arr [Json.str "navy".toList])],
        generated_at := some (getFieldD [] "created_at".toList (.str [])) }) :=
  ⟨rfl,
   style_insights_returns_parsed_verbatim []
     "\x7b\"summary\": \"x\", \"color_palette\": [\"navy\"]\x7d".toList
     (Json.obj [("summary".toList, Json.str "x".toList),
                ("color_palette".toList, Json.arr [Json.str "navy".toList])]) rfl⟩

set_option maxRecDepth 8192 in
/-- C4 counterexample: a well-formed reply whose top section carries all the
keys the prompt requests (item, details, category, color, fabric, style).
The normalizer's output top section keeps only item and details, so the
section value is not preserved unchanged. -/
theorem outfit_section_values_not_identity :
    ((firstOutfit (generate_outfit_recommendations true []
        (.ok "\x7b\"outfits\": [\x7b\"title\": \"T\", \"description\": \"D\", \"top\": \x7b\"item\": \"Shirt\", \"details\": [\"d1\"], \"category\": \"top\", \"color\": \"Navy Blue\", \"fabric\": \"Cotton\", \"style\": \"formal\"\x7d, \"accessories\": \x7b\"items\": [\"Watch\"]\x7d\x7d]\x7d".toList))).map
      (fun r => getField r.sections "top".toList))
      = some (some (Json.obj [("item".toList, Json.str "Shirt".toList),
                              ("details".toList, Json.arr [Json.str "d1".toList])])) ∧
    Json.obj [("item".toList, Json.str "Shirt".toList),
              ("details".toList, Json.arr [Json.str "d1".toList])]
      ≠ Json.obj [("item".toList, Json.str "Shirt".toList),
                  ("details".toList, Json.arr [Json.str "d1".toList]),
                  ("category".toList, Json.str "top".toList),
                  ("color".toList, Json.str "Navy Blue".toList),
                  ("fabric".toList, Json.str "Cotton".toList),
                  ("style".toList, Json.str "formal".toList)] :=
  ⟨rfl, by decide⟩

/-- C4 (amended): for well-formed replies the style-insights normalizer
returns the parsed value verbatim, and the outfit normalizer preserves the
values it extracts unchanged — each main section's `item` and `details` and
the accessories `items` list — while rebuilding the section objects from
exactly those keys (any other section keys are dropped). -/
theorem normalizers_preserve_extracted_values :
    (∀ (profile : List (PStr × Json)) (raw : PStr) (j : Json),
      parseJson (stripCodeFences (pyStrip raw)) = some j →
      (generate_style_insights profile (.ok raw)).insights = j) ∧
    (∀ (ofs dfs acc : List (PStr × Json)) (name : PStr) (iv dv : Json),
      name ≠ "accessories".toList →
      getField ofs name = some (.obj dfs) →
      (Json.obj dfs).truthy = true →
      getField dfs "item".toList = some iv →
      getField dfs "details".toList = some dv →
      processSection ofs name acc
        = .ok (insertField acc name
            (.obj [("item".toList, iv), ("details".toList, dv)]))) ∧
    (∀ (ofs afs acc : List (PStr × Json)) (itv : Json),
      getField ofs "accessories".toList = some (.obj afs) →
      (Json.obj afs).truthy = true →
      getField afs "items".toList = some itv →
      processSection ofs "accessories".toList acc
        = .ok (insertField acc "accessories".toList (.obj [("items".toList, itv)]))) := by
  refine ⟨?_, ?_, ?_⟩
  · intro profile raw j h
    simp [generate_style_insights, h]
  · intro ofs dfs acc name iv dv hname hget htruthy hitem hdetails
    unfold processSection
    rw [hget]
    simp only [String.toList] at hname hitem hdetails
    simp [htruthy, hname, getFieldD, hitem, hdetails]
  · intro ofs afs acc itv hget htruthy hitems
    unfold processSection
    rw [hget]
    simp only [String.toList] at hitems
    simp [htruthy, getFieldD, hitems]

/-- Witness for the amended C4 at concrete section objects. -/
theorem normalizers_preserve_extracted_values_witness :
    (parseJson (stripCodeFences (pyStrip "\x7b\"summary\": \"x\"\x7d".toList))
      = some (Json.obj [("summary".toList, Json.str "x".toList)])) ∧
    ((generate_style_insights [] (.ok "\x7b\"summary\": \"x\"\x7d".toList)).insights
      = Json.obj [("summary".toList, Json.str "x".toList)]) ∧
    (processSection
        [("top".toList, Json.obj [("item".toList, Json.str "Shirt".toList),
                                  ("details".toList, Json.arr [Json.str "d1".toList])])]
        "top".toList []
      = .ok [("top".toList,
              Json.obj [("item".toList, Json.str "Shirt".toList),
                        ("details".toList, Json.arr [Json.str "d1".toList])])]) ∧
    (processSection
        [("accessories".toList, Json.obj [("items".toList, Json.arr [Json.str "Watch".toList])])]
        "accessories".toList []
      = .ok [("accessories".toList,
              Json.obj [("items".toList, Json.arr [Json.str "Watch".toList])])]) :=
  ⟨rfl,
   normalizers_preserve_extracted_values.1 [] "\x7b\"summary\": \"x\"\x7d".toList
     (Json.obj [("summary".toList, Json.str "x".toList)]) rfl,
   normalizers_preserve_extracted_values.2.1
     [("top".toList, Json.obj [("item".toList, Json.str "Shirt".toList),
                               ("details".toList, Json.arr [Json.str "d1".toList])])]
     [("item".toList, Json.str "Shirt".toList),
      ("details".toList, Json.arr [Json.str "d1".toList])]
     [] "top".toList (Json.str "Shirt".toList) (Json.arr [Json.str "d1".toList])
     (by decide) (by decide) (by decide) (by decide) (by decide),
   normalizers_preserve_extracted_values.2.2
     [("accessories".toList, Json.obj [("items".toList, Json.arr [Json.str "Watch".toList])])]
     [("items".toList, Json.arr [Json.str "Watch".toList])]
     [] (Json.arr [Json.str "Watch".toList])
     (by decide) (by decide) (by decide)⟩

/-- A list that dropWhile leaves unchanged also leaves unchanged every prefix
of it: the head, when present, already fails the predicate. -/
theorem dropWhile_eq_self_of_isPrefix {p : Char → Bool} {u w : List Char}
    (hu : List.dropWhile p u = u) (hw : w <+: u) : List.dropWhile p w = w := by
  cases w with
  | nil => rfl
  | cons c w2 =>
    obtain ⟨t, ht⟩ := hw
    have hpc : p c = false := by
      by_contra hpc
      rw [Bool.not_eq_false] at hpc
      rw [← ht] at hu
      rw [List.cons_append] at hu
      rw [show List.dropWhile p (c :: (w2 ++ t)) = List.dropWhile p (w2 ++ t) by
        simp [List.dropWhile_cons, hpc]] at hu
      have hlen := congrArg List.length hu
      have hle := (List.dropWhile_suffix p (l := w2 ++ t)).length_le
      simp [List.length_append] at hlen hle
      omega
    simp [List.dropWhile_cons, hpc]

/-- Python `strip()` is idempotent. -/
theorem pyStrip_idempotent (x : PStr) : pyStrip (pyStrip x) = pyStrip x := by
  unfold pyStrip
  rw [dropWhile_eq_self_of_isPrefix (List.dropWhile_idempotent isWs x)
    (List.rdropWhile_prefix isWs (List.dropWhile isWs x))]
  exact List.rdropWhile_idempotent isWs (List.dropWhile isWs x)

/-- The fence-strip step always ends in `strip()`, so stripping its output
again is the identity. -/
theorem pyStrip_stripCodeFences (s : PStr) :
    pyStrip (stripCodeFences s) = stripCodeFences s := by
  unfold stripCodeFences
  exact pyStrip_idempotent _

/-- C3 counterexample: on " ```abc" the leading space hides the fence from
both prefix checks and there is no trailing fence, so the first pass only
trims the space; the trim exposes a leading "```" that the second pass then
removes, so applying the strip step twice differs from applying it once. -/
theorem strip_step_not_idempotent :
    stripCodeFences " ```abc".toList = "```abc".toList ∧
    stripCodeFences (stripCodeFences " ```abc".toList) = "abc".toList ∧
    stripCodeFences (stripCodeFences " ```abc".toList) ≠ stripCodeFences " ```abc".toList :=
  ⟨by decide, by decide, by decide⟩

/-- C3 (amended): the markdown-fence strip step is idempotent on every input
whose once-stripped result neither starts nor ends with "```"; a second
application differs exactly when the first pass's final trim (or fence
removal) exposes a new leading or trailing fence. -/
theorem strip_step_idempotent_without_exposed_fence (s : PStr)
    (h1 : ¬ (fence <+: stripCodeFences s)) (h2 : ¬ (fence <:+ stripCodeFences s)) :
    stripCodeFences (stripCodeFences s) = stripCodeFences s := by
  have hj : ¬ (fenceJson <+: stripCodeFences s) :=
    fun h => h1 ((by decide : fence <+: fenceJson).trans h)
  have e1 : stripFenceJsonPrefix (stripCodeFences s) = stripCodeFences s := by
    unfold stripFenceJsonPrefix; rw [if_neg hj]
  have e2 : stripFencePrefix (stripCodeFences s) = stripCodeFences s := by
    unfold stripFencePrefix; rw [if_neg h1]
  have e3 : stripFenceSuffix (stripCodeFences s) = stripCodeFences s := by
    unfold stripFenceSuffix; rw [if_neg h2]
  calc stripCodeFences (stripCodeFences s)
      = pyStrip (stripFenceSuffix (stripFencePrefix (stripFenceJsonPrefix (stripCodeFences s)))) := rfl
    _ = pyStrip (stripCodeFences s) := by rw [e1, e2, e3]
    _ = stripCodeFences s := pyStrip_stripCodeFences s

/-- Witness for the amended C3: a fenced JSON reply whose stripped body has
no residual fence. -/
theorem strip_step_idempotent_without_exposed_fence_witness :
    (¬ (fence <+: stripCodeFences "```json\n\x7b\"a\": 1\x7d\n```".toList)) ∧
    (¬ (fence <:+ stripCodeFences "```json\n\x7b\"a\": 1\x7d\n```".toList)) ∧
    stripCodeFences (stripCodeFences "```json\n\x7b\"a\": 1\x7d\n```".toList)
      = stripCodeFences "```json\n\x7b\"a\": 1\x7d\n```".toList :=
  ⟨by decide, by decide,
   strip_step_idempotent_without_exposed_fence "```json\n\x7b\"a\": 1\x7d\n```".toList
     (by decide) (by decide)⟩
